import Mathlib

/-!
Verification of the Unified Identity Binding and Merge Engine
(casdoor-copy, package object and its controller layer).

The Go source is shallowly embedded: the database tables become lists of
rows inside a Store structure, one xorm session becomes a copy of the
store that replaces the store only on commit, and the external
collaborators (JWT parsing, id generation, clock, password check) become
an explicit Env record. Storage-layer failures of the statements executed
inside the merge transaction are modelled by an explicit fault oracle so
that rollback behaviour is provable for every failure point the code
handles.
-/

namespace Casdoor

/-- Error outcomes of the engine, one constructor per distinct error the
Go code returns (fmt.Errorf sites and collaborator failures). -/
inductive Err where
  | invalidToken : Err
  | badRequest : Err
  | unauthorized : Err
  | accountNotFound : Err
  | accountAlreadyDeleted : Err
  | sameAccount : Err
  | storage : Err
  | credentialAlreadyBound : Err
  | insertFailed : Err
  | lastCredential : Err
  | bindingNotFound : Err
  | deleteFailed : Err
  | authenticationFailed : Err
  | unsupportedAuthType : Err
  | invalidUsernameFormat : Err
  | passwordCheckFailed : Err
  | primaryProviderRequired : Err
  | noCredentialAvailable : Err
deriving DecidableEq, Repr

/-- Row of the user_identity_binding table (struct UserIdentityBinding). -/
structure UserIdentityBinding where
  id : String
  universalId : String
  authType : String
  authValue : String
  createdTime : String
deriving DecidableEq, Repr

/-- Transient reporting projection of a binding (struct AuthMethod). -/
structure AuthMethod where
  authType : String
  authValue : String
deriving DecidableEq, Repr

/-- Result of a successful merge (struct MergeResult). -/
structure MergeResult where
  universalId : String
  deletedUserId : String
  mergedAuthMethods : List AuthMethod
deriving DecidableEq, Repr

/-- The fields of the User row that the engine reads: identity, deletion
flag, and the per-provider credential fields consulted by the Provider
Resolver. Properties is the generic key-value property map (a missing key
reads as the empty string, as a Go nil-map lookup does). -/
structure User where
  owner : String
  name : String
  universalId : String
  isDeleted : Bool
  email : String
  phone : String
  password : String
  github : String
  google : String
  wechat : String
  qq : String
  facebook : String
  dingtalk : String
  weibo : String
  ldap : String
  custom : String
  properties : List (String × String)
deriving DecidableEq, Repr

/-- user.GetId() = owner/name. -/
def getId (u : User) : String := u.owner ++ "/" ++ u.name

/-- Go map read with zero value for a missing key. -/
def getProp (u : User) (k : String) : String := (u.properties.lookup k).getD ""

/-- Token table row, keyed by the user name column the merge purge uses. -/
structure Token where
  user : String
deriving DecidableEq, Repr

/-- Session table row, keyed by owner and name. -/
structure SessionRec where
  owner : String
  name : String
deriving DecidableEq, Repr

/-- Verification record row, keyed by the user id (owner/name composite). -/
structure VerificationRecord where
  user : String
deriving DecidableEq, Repr

/-- Resource table row, keyed by the user name column. -/
structure Resource where
  user : String
deriving DecidableEq, Repr

/-- Payment table row, keyed by the user name column. -/
structure Payment where
  user : String
deriving DecidableEq, Repr

/-- Transaction table row, keyed by the user name column. -/
structure TransactionRec where
  user : String
deriving DecidableEq, Repr

/-- Subscription table row, keyed by the user name column. -/
structure Subscription where
  user : String
deriving DecidableEq, Repr

/-- The durable state the engine touches: every table as a list of rows. -/
structure Store where
  bindings : List UserIdentityBinding
  users : List User
  tokens : List Token
  sessions : List SessionRec
  verifications : List VerificationRecord
  resources : List Resource
  payments : List Payment
  transactions : List TransactionRec
  subscriptions : List Subscription
deriving DecidableEq, Repr

/-- The claims a parsed JWT yields: the universal identity and the user
name (claims.UniversalId and claims.User.Name). -/
structure Claims where
  universalId : String
  userName : String
deriving DecidableEq, Repr

/-- External collaborators of the engine: ParseJwtTokenByApplication
(None models a parse error), util.GenerateId as an indexed fresh-id
oracle, util.GetCurrentTime as a constant of the call, and
CheckUserPassword as a fallible account lookup. -/
structure Env where
  parseToken : String → Option Claims
  genId : Nat → String
  now : String
  checkUserPassword : String → String → String → Except Err User

/-- strings.ToLower, as a character-wise map over the character list of
the string. -/
def toLowerStr (s : String) : String := String.mk (s.toList.map Char.toLower)

/-- GetUserIdentityBindingByAuth: first row whose (auth_type, auth_value)
matches. -/
def GetUserIdentityBindingByAuth (bs : List UserIdentityBinding) (authType authValue : String) :
    Option UserIdentityBinding :=
  bs.find? fun b => b.authType == authType && b.authValue == authValue

/-- GetUserIdentityBindingsByUniversalId: all rows of one identity. -/
def GetUserIdentityBindingsByUniversalId (bs : List UserIdentityBinding) (universalId : String) :
    List UserIdentityBinding :=
  bs.filter fun b => b.universalId == universalId

/-- checkAuthMethodExists: count of rows matching universal id, type and
value is positive. -/
def checkAuthMethodExists (sess : List UserIdentityBinding) (universalId authType authValue : String) :
    Bool :=
  sess.any fun b => b.universalId == universalId && b.authType == authType && b.authValue == authValue

/-- getUserByUniversalId: first user row with the universal id; the Go
function turns the missing row into an error at its call sites. -/
def getUserByUniversalId (st : Store) (universalId : String) : Option User :=
  st.users.find? fun u => u.universalId == universalId

/-- The credential carried by a binding row. -/
def cred (b : UserIdentityBinding) : String × String := (b.authType, b.authValue)

/-- The credentials an identity owns in a binding table. -/
def credsOf (bs : List UserIdentityBinding) (universalId : String) : List (String × String) :=
  (GetUserIdentityBindingsByUniversalId bs universalId).map cred

/-- The credential carried by a reported auth method. -/
def methodCred (m : AuthMethod) : String × String := (m.authType, m.authValue)

/-- AddUserIdentityBindingForUser: idempotent when the credential is
already bound to the same identity, rejected when bound to another
identity, otherwise inserts one fresh row. Returns the binding the Go
function returns together with the binding table after the call. -/
def AddUserIdentityBindingForUser (env : Env) (bs : List UserIdentityBinding)
    (universalId authType authValue : String) :
    Except Err (UserIdentityBinding × List UserIdentityBinding) :=
  match GetUserIdentityBindingByAuth bs authType authValue with
  | some existingBinding =>
    if existingBinding.universalId = universalId then
      .ok (existingBinding, bs)
    else
      .error .credentialAlreadyBound
  | none =>
    let binding : UserIdentityBinding :=
      { id := env.genId 0, universalId := universalId, authType := authType,
        authValue := authValue, createdTime := env.now }
    .ok (binding, bs ++ [binding])

/-- RemoveUserIdentityBindingForUser: refuses to delete the last binding,
reports a missing target, otherwise deletes the row with the id of the
first binding of the identity whose auth type matches. The only write of
the Go function is that single delete, so an error leaves the table as
given. -/
def RemoveUserIdentityBindingForUser (bs : List UserIdentityBinding)
    (universalId authType : String) : Except Err (List UserIdentityBinding) :=
  let bindings := GetUserIdentityBindingsByUniversalId bs universalId
  if bindings.length ≤ 1 then
    .error .lastCredential
  else
    match bindings.find? (fun b => b.authType == authType) with
    | none => .error .bindingNotFound
    | some targetBinding =>
      let remaining := bs.filter fun b => !(b.id == targetBinding.id)
      if bs.length = remaining.length then .error .deleteFailed
      else .ok remaining

/-- autoDetectProviderType: the fixed priority scan over the user fields. -/
def autoDetectProviderType (u : User) : String × String :=
  if u.email ≠ "" then ("email", u.email)
  else if u.phone ≠ "" then ("phone", u.phone)
  else if u.password ≠ "" then ("password", u.owner ++ "/" ++ u.name)
  else if u.github ≠ "" then ("github", u.github)
  else if u.google ≠ "" then ("google", u.google)
  else if u.wechat ≠ "" then ("wechat", u.wechat)
  else if u.qq ≠ "" then ("qq", u.qq)
  else if u.facebook ≠ "" then ("facebook", u.facebook)
  else if u.dingtalk ≠ "" then ("dingtalk", u.dingtalk)
  else if u.weibo ≠ "" then ("weibo", u.weibo)
  else if u.ldap ≠ "" then ("ldap", u.ldap)
  else if u.custom ≠ "" then ("custom", u.custom)
  else ("", "")

/-- getProviderValue: the per-type field read, with the property-map
fallbacks the Go switch performs. -/
def getProviderValue (u : User) (providerType : String) : String :=
  let providerTypeLower := toLowerStr providerType
  if providerTypeLower = "github" then
    if u.github ≠ "" then u.github
    else if getProp u "oauth_GitHub_id" ≠ "" then getProp u "oauth_GitHub_id"
    else if getProp u "oauth_GitHub_username" ≠ "" then getProp u "oauth_GitHub_username"
    else ""
  else if providerTypeLower = "google" then u.google
  else if providerTypeLower = "wechat" then u.wechat
  else if providerTypeLower = "qq" then u.qq
  else if providerTypeLower = "facebook" then u.facebook
  else if providerTypeLower = "dingtalk" then u.dingtalk
  else if providerTypeLower = "weibo" then u.weibo
  else if providerTypeLower = "email" then u.email
  else if providerTypeLower = "phone" then u.phone
  else if providerTypeLower = "password" then
    if u.password ≠ "" then u.owner ++ "/" ++ u.name else ""
  else if providerTypeLower = "ldap" then u.ldap
  else if providerTypeLower = "custom" then
    if u.custom ≠ "" then u.custom
    else if getProp u "oauth_Custom_id" ≠ "" then getProp u "oauth_Custom_id"
    else ""
  else
    getProp u ("oauth_" ++ providerType ++ "_id")

/-- createIdentityBindingsWithValue: requires a primary provider, takes
the provider value from the argument, then the user fields, then the
auto-detection scan, and inserts one binding row; returns the binding
table after the call. -/
def createIdentityBindingsWithValue (env : Env) (bs : List UserIdentityBinding) (u : User)
    (universalId primaryProvider providerValue : String) :
    Except Err (List UserIdentityBinding) :=
  if primaryProvider = "" then .error .primaryProviderRequired
  else
    let providerValue1 := if providerValue = "" then getProviderValue u primaryProvider else providerValue
    let detected := autoDetectProviderType u
    let pair :=
      if providerValue1 = "" then
        if detected.1 ≠ "" ∧ detected.2 ≠ "" then detected else (primaryProvider, providerValue1)
      else (primaryProvider, providerValue1)
    if pair.2 = "" then .error .noCredentialAvailable
    else
      let binding : UserIdentityBinding :=
        { id := env.genId 0, universalId := universalId, authType := toLowerStr pair.1,
          authValue := pair.2, createdTime := env.now }
      .ok (bs ++ [binding])

/-- Fault oracle for the statements the merge transaction executes. A
true flag makes the corresponding database statement report a
storage-layer error, exactly at the points the Go code checks err and
calls session.Rollback (or fails the commit). -/
structure MergeFaults where
  checkFail : Nat → Bool
  insertFail : Nat → Bool
  deleteBindingsFail : Bool
  deleteTokensFail : Bool
  deleteSessionsFail : Bool
  deleteVerificationsFail : Bool
  deleteResourcesFail : Bool
  deletePaymentsFail : Bool
  deleteTransactionsFail : Bool
  deleteSubscriptionsFail : Bool
  deleteUserFail : Bool
  commitFail : Bool

/-- The run with no storage-layer failure. -/
def noFaults : MergeFaults :=
  ⟨fun _ => false, fun _ => false, false, false, false, false, false, false,
   false, false, false, false⟩

/-- Step 6 of MergeUsers: walk the bindings of the user to be deleted;
for each, check existence under the reserved identity against the session
(which already contains the insertions made earlier in the loop), skip on
existence, otherwise insert a fresh row under the reserved identity and
record the auth method for the result payload. -/
def transferLoop (env : Env) (f : MergeFaults) (reservedUid : String) :
    List UserIdentityBinding → Nat → List UserIdentityBinding → List AuthMethod →
    Except Err (List UserIdentityBinding × List AuthMethod)
  | [], _, sess, acc => .ok (sess, acc)
  | b :: rest, i, sess, acc =>
    if f.checkFail i then .error .storage
    else if checkAuthMethodExists sess reservedUid b.authType b.authValue then
      transferLoop env f reservedUid rest (i + 1) sess acc
    else if f.insertFail i then .error .storage
    else
      let newBinding : UserIdentityBinding :=
        { id := env.genId i, universalId := reservedUid, authType := b.authType,
          authValue := b.authValue, createdTime := env.now }
      transferLoop env f reservedUid rest (i + 1) (sess ++ [newBinding])
        (acc ++ [{ authType := b.authType, authValue := b.authValue }])

/-- The body of MergeUsers: precondition checks, then the transaction.
The session is the store copy being mutated; an error anywhere is a
rollback, so the caller of mergeUsers keeps the original store. -/
def mergeUsersCore (env : Env) (f : MergeFaults) (st : Store)
    (reservedUserToken deletedUserToken : String) : Except Err (MergeResult × Store) :=
  match env.parseToken reservedUserToken with
  | none => .error .invalidToken
  | some reservedClaims =>
  match env.parseToken deletedUserToken with
  | none => .error .invalidToken
  | some deletedClaims =>
  match getUserByUniversalId st reservedClaims.universalId with
  | none => .error .accountNotFound
  | some reservedUser =>
  match getUserByUniversalId st deletedClaims.universalId with
  | none => .error .accountNotFound
  | some deletedUser =>
  if reservedUser.isDeleted then .error .accountAlreadyDeleted
  else if deletedUser.isDeleted then .error .accountAlreadyDeleted
  else if reservedUser.universalId = deletedUser.universalId then .error .sameAccount
  else
    let deletedBindings := GetUserIdentityBindingsByUniversalId st.bindings deletedUser.universalId
    match transferLoop env f reservedUser.universalId deletedBindings 0 st.bindings [] with
    | .error e => .error e
    | .ok (sessBindings, mergedAuthMethods) =>
    if f.deleteBindingsFail then .error .storage else
    let sessBindings := sessBindings.filter fun b => !(b.universalId == deletedUser.universalId)
    if f.deleteTokensFail then .error .storage else
    let tokens := st.tokens.filter fun t => !(t.user == deletedUser.name)
    if f.deleteSessionsFail then .error .storage else
    let sessions := st.sessions.filter fun s => !(s.owner == deletedUser.owner && s.name == deletedUser.name)
    if f.deleteVerificationsFail then .error .storage else
    let verifications := st.verifications.filter fun r => !(r.user == getId deletedUser)
    if f.deleteResourcesFail then .error .storage else
    let resources := st.resources.filter fun r => !(r.user == deletedUser.name)
    if f.deletePaymentsFail then .error .storage else
    let payments := st.payments.filter fun p => !(p.user == deletedUser.name)
    if f.deleteTransactionsFail then .error .storage else
    let transactions := st.transactions.filter fun p => !(p.user == deletedUser.name)
    if f.deleteSubscriptionsFail then .error .storage else
    let subscriptions := st.subscriptions.filter fun p => !(p.user == deletedUser.name)
    if f.deleteUserFail then .error .storage else
    let users := st.users.filter fun x => !(x.owner == deletedUser.owner && x.name == deletedUser.name)
    if f.commitFail then .error .storage else
    .ok ({ universalId := reservedUser.universalId,
           deletedUserId := deletedUser.universalId,
           mergedAuthMethods := mergedAuthMethods },
         { bindings := sessBindings, users := users, tokens := tokens, sessions := sessions,
           verifications := verifications, resources := resources, payments := payments,
           transactions := transactions, subscriptions := subscriptions })

/-- MergeUsers as observed at the store level: on any error the
transaction is rolled back, so the store after the call is the store
before it; on success the committed session replaces the store. -/
def mergeUsers (env : Env) (f : MergeFaults) (st : Store)
    (reservedUserToken deletedUserToken : String) : Except Err MergeResult × Store :=
  match mergeUsersCore env f st reservedUserToken deletedUserToken with
  | .error e => (.error e, st)
  | .ok (r, st1) => (.ok r, st1)

/-- The boundary-layer MergeUsers handler of the controller package, from
the point where the bearer token is in hand: parse the caller token,
require both body tokens, parse them, require the caller to be one of the
two participants, then delegate to the orchestrator. -/
def controllerMergeUsers (env : Env) (f : MergeFaults) (st : Store)
    (authToken reservedUserToken deletedUserToken : String) :
    Except Err MergeResult × Store :=
  match env.parseToken authToken with
  | none => (.error .invalidToken, st)
  | some claims =>
    if reservedUserToken = "" ∨ deletedUserToken = "" then (.error .badRequest, st)
    else
      match env.parseToken reservedUserToken with
      | none => (.error .invalidToken, st)
      | some reservedClaims =>
        match env.parseToken deletedUserToken with
        | none => (.error .invalidToken, st)
        | some deletedClaims =>
          if claims.userName ≠ reservedClaims.userName ∧ claims.userName ≠ deletedClaims.userName then
            (.error .unauthorized, st)
          else
            mergeUsers env f st reservedUserToken deletedUserToken

/-- strings.Split on the slash character, over the character list of the
string. -/
def splitSlashAux : List Char → List Char → List String
  | [], acc => [String.mk acc.reverse]
  | c :: cs, acc =>
    if c = '/' then String.mk acc.reverse :: splitSlashAux cs []
    else splitSlashAux cs (c :: acc)

/-- strings.Split(s, slash). -/
def splitSlash (s : String) : List String := splitSlashAux s.toList []

/-- validateUsernamePassword: parse the owner/name composite and call the
external password checker. -/
def validateUsernamePassword (env : Env) (userOwnerName password : String) : Except Err User :=
  match splitSlash userOwnerName with
  | [owner, name] => env.checkUserPassword owner name password
  | _ => .error .invalidUsernameFormat

/-- GetUserIdentityBindingByAuth with an injected storage fault, used to
model a failing binding lookup inside LoginWithUnifiedIdentity. -/
def GetUserIdentityBindingByAuthF (fault : Bool) (bs : List UserIdentityBinding)
    (authType authValue : String) : Except Err (Option UserIdentityBinding) :=
  if fault then .error .storage
  else .ok (GetUserIdentityBindingByAuth bs authType authValue)

/-- LoginWithUnifiedIdentity. The switch leaves a pair of the binding and
the OUTER err variable: in the github, phone and email cases the lookup
assigns the outer err, while in the password case the case-scoped err
shadows it, so a failing lookup there leaves the outer err nil and only
sets the binding to nil (the Go code declares user, err with a short
variable declaration inside the case). bindingLookupFault injects the
storage failure of the binding lookup performed inside the switch. -/
def LoginWithUnifiedIdentity (env : Env) (bindingLookupFault : Bool) (st : Store)
    (authType authValue password : String) : Except Err User :=
  let afterSwitch : Except Err (Option UserIdentityBinding) :=
    if authType = "github" then GetUserIdentityBindingByAuthF bindingLookupFault st.bindings "github" authValue
    else if authType = "phone" then GetUserIdentityBindingByAuthF bindingLookupFault st.bindings "phone" authValue
    else if authType = "email" then GetUserIdentityBindingByAuthF bindingLookupFault st.bindings "email" authValue
    else if authType = "password" then
      match validateUsernamePassword env authValue password with
      | .error e => .error e
      | .ok user =>
        match GetUserIdentityBindingByAuthF bindingLookupFault st.bindings "password"
            (user.owner ++ "/" ++ user.name) with
        | .error _ => .ok none
        | .ok b => .ok b
    else .error .unsupportedAuthType
  match afterSwitch with
  | .error e => .error e
  | .ok none => .error .authenticationFailed
  | .ok (some binding) =>
    match getUserByUniversalId st binding.universalId with
    | none => .error .accountNotFound
    | some user => .ok user

/-- Modelled from the spec: the committed fixed priority order of the
Provider Resolver — email, phone, password (value is the owner/name
composite), github, google, wechat, qq, facebook, dingtalk, weibo, ldap,
custom — as a first-non-empty search over the ordered field list. -/
def specFieldOrder (u : User) : List (String × String) :=
  [("email", u.email), ("phone", u.phone), ("password", u.password),
   ("github", u.github), ("google", u.google), ("wechat", u.wechat), ("qq", u.qq),
   ("facebook", u.facebook), ("dingtalk", u.dingtalk), ("weibo", u.weibo),
   ("ldap", u.ldap), ("custom", u.custom)]

/-- Modelled from the spec: return the first non-empty field in the fixed
priority order, with the password value replaced by the owner/name
composite; the empty pair is the NotFound outcome. -/
def specResolve (u : User) : String × String :=
  match (specFieldOrder u).find? (fun p => !(p.2 == "")) with
  | none => ("", "")
  | some p => if p.1 = "password" then ("password", u.owner ++ "/" ++ u.name) else p

/-- All provider fields of the priority list are empty. -/
def allProviderFieldsEmpty (u : User) : Prop :=
  u.email = "" ∧ u.phone = "" ∧ u.password = "" ∧ u.github = "" ∧ u.google = "" ∧
  u.wechat = "" ∧ u.qq = "" ∧ u.facebook = "" ∧ u.dingtalk = "" ∧ u.weibo = "" ∧
  u.ldap = "" ∧ u.custom = ""

instance (u : User) : Decidable (allProviderFieldsEmpty u) := by
  unfold allProviderFieldsEmpty; infer_instance

/-- Global credential uniqueness: two binding rows carrying the same
credential always belong to the same universal identity. -/
def globallyUnique (bs : List UserIdentityBinding) : Prop :=
  ∀ b1 ∈ bs, ∀ b2 ∈ bs,
    b1.authType = b2.authType → b1.authValue = b2.authValue → b1.universalId = b2.universalId

instance (bs : List UserIdentityBinding) : Decidable (globallyUnique bs) := by
  unfold globallyUnique; infer_instance

/-- The rows the transfer loop inserts, as a function of the bindings of
the identity to be deleted and of the credentials the session already
holds under the reserved identity (seen). Mirrors one pass of step 6 of
MergeUsers. -/
def transferInserted (env : Env) (reservedUid : String) :
    List UserIdentityBinding → Nat → List (String × String) → List UserIdentityBinding
  | [], _, _ => []
  | b :: rest, i, seen =>
    if (b.authType, b.authValue) ∈ seen then
      transferInserted env reservedUid rest (i + 1) seen
    else
      { id := env.genId i, universalId := reservedUid, authType := b.authType,
        authValue := b.authValue, createdTime := env.now }
        :: transferInserted env reservedUid rest (i + 1) (seen ++ [(b.authType, b.authValue)])

/-- A merge-fault assignment that fails exactly the purge of payment
records, the mid-transaction failure of the atomicity test property. -/
def paymentsFault : MergeFaults := { noFaults with deletePaymentsFail := true }

/- Concrete instances used by witnesses and counterexamples. -/

/-- An environment whose token oracle knows three subjects. -/
def envEx : Env :=
  { parseToken := fun t =>
      if t = "tokA" then some ⟨"U-A", "alice"⟩
      else if t = "tokB" then some ⟨"U-B", "bob"⟩
      else if t = "tokM" then some ⟨"U-M", "mallory"⟩
      else none,
    genId := fun _ => "newid",
    now := "t1",
    checkUserPassword := fun _ _ _ => .error .passwordCheckFailed }

/-- Account bound to an email credential. -/
def userAlice : User :=
  { owner := "org", name := "alice", universalId := "U-A", isDeleted := false,
    email := "a@x.com", phone := "", password := "", github := "", google := "",
    wechat := "", qq := "", facebook := "", dingtalk := "", weibo := "",
    ldap := "", custom := "", properties := [] }

/-- Account sharing the email credential and owning a phone credential. -/
def userBob : User :=
  { userAlice with name := "bob", universalId := "U-B", phone := "555" }

/-- Binding of the email credential to the reserved identity. -/
def bindA : UserIdentityBinding := ⟨"id1", "U-A", "email", "a@x.com", "t0"⟩

/-- Binding of the same email credential to the identity to be deleted. -/
def bindB1 : UserIdentityBinding := ⟨"id2", "U-B", "email", "a@x.com", "t0"⟩

/-- Phone binding of the identity to be deleted. -/
def bindB2 : UserIdentityBinding := ⟨"id3", "U-B", "phone", "555", "t0"⟩

/-- The store of the shared-credential merge scenario of the spec:
alice (U-A) holds email a@x.com, bob (U-B) holds the same email plus
phone 555, and bob owns one dependent row in each purged table. -/
def stEx : Store :=
  { bindings := [bindA, bindB1, bindB2], users := [userAlice, userBob],
    tokens := [⟨"bob"⟩], sessions := [⟨"org", "bob"⟩], verifications := [⟨"org/bob"⟩],
    resources := [⟨"bob"⟩], payments := [⟨"bob"⟩], transactions := [⟨"bob"⟩],
    subscriptions := [⟨"bob"⟩] }

/-- A google binding owned by U-A, for the login-resolver counterexample. -/
def bindGoogle : UserIdentityBinding := ⟨"id9", "U-A", "google", "g1", "t0"⟩

/-- Store holding a google binding and its account. -/
def stGoogle : Store :=
  { stEx with bindings := [bindA, bindGoogle] }

/-- Environment whose password checker accepts exactly org/alice with
password pw, for the login-resolver witnesses. -/
def envPw : Env :=
  { envEx with checkUserPassword := fun o n p =>
      if o = "org" ∧ n = "alice" ∧ p = "pw" then .ok userAlice
      else .error .passwordCheckFailed }

/-- Existing email binding under identity U1, for the uniqueness bug. -/
def bindU1 : UserIdentityBinding := ⟨"id1", "U1", "email", "a@x.com", "t0"⟩

/-- A second account created with the same email while the email is
already bound to U1. -/
def userCarol : User :=
  { userAlice with name := "carol", universalId := "U2" }

/-- The duplicate row the creation path inserts under U2. -/
def bindU2dup : UserIdentityBinding := ⟨"newid", "U2", "email", "a@x.com", "t1"⟩

/-- Account created with a github hint but no github value, carrying only
a phone number, for the auto-detection witness. -/
def userPhoneOnly : User :=
  { userAlice with name := "dave", universalId := "U3", email := "", phone := "13800000000" }

/- Helper lemmas. -/

@[simp] theorem cred_def (b : UserIdentityBinding) : cred b = (b.authType, b.authValue) := rfl

@[simp] theorem methodCred_def (m : AuthMethod) : methodCred m = (m.authType, m.authValue) := rfl

theorem checkAuthMethodExists_iff (sess : List UserIdentityBinding) (r t v : String) :
    checkAuthMethodExists sess r t v = true ↔ (t, v) ∈ credsOf sess r := by
  simp only [checkAuthMethodExists, credsOf, GetUserIdentityBindingsByUniversalId, cred,
    List.any_eq_true, List.mem_map, List.mem_filter, Bool.and_eq_true, beq_iff_eq,
    Prod.mk.injEq]
  tauto

theorem credsOf_append (a b : List UserIdentityBinding) (r : String) :
    credsOf (a ++ b) r = credsOf a r ++ credsOf b r := by
  simp [credsOf, GetUserIdentityBindingsByUniversalId, List.filter_append]

theorem credsOf_singleton_mem (nb : UserIdentityBinding) (r : String) (h : nb.universalId = r) :
    credsOf [nb] r = [(nb.authType, nb.authValue)] := by
  simp [credsOf, GetUserIdentityBindingsByUniversalId, List.filter, h, cred]

theorem transferLoop_noLoopFaults (env : Env) (f : MergeFaults) (r : String)
    (hc : ∀ i, f.checkFail i = false) (hi : ∀ i, f.insertFail i = false) :
    ∀ (ds : List UserIdentityBinding) (i : Nat) (sess : List UserIdentityBinding)
      (acc : List AuthMethod),
      transferLoop env f r ds i sess acc =
        .ok (sess ++ transferInserted env r ds i (credsOf sess r),
             acc ++ (transferInserted env r ds i (credsOf sess r)).map
               (fun b => { authType := b.authType, authValue := b.authValue })) := by
  intro ds
  induction ds with
  | nil => intro i sess acc; simp [transferLoop, transferInserted]
  | cons b rest ih =>
    intro i sess acc
    rw [transferLoop, transferInserted]
    rw [hc i, if_neg (by simp)]
    by_cases hm : (b.authType, b.authValue) ∈ credsOf sess r
    · rw [if_pos ((checkAuthMethodExists_iff sess r b.authType b.authValue).mpr hm),
        if_pos hm, ih]
    · rw [if_neg (by
        intro hcontra
        exact hm ((checkAuthMethodExists_iff sess r b.authType b.authValue).mp hcontra)),
        hi i, if_neg (by simp), if_neg hm, ih]
      have hcr : credsOf (sess ++
          [{ id := env.genId i, universalId := r, authType := b.authType,
             authValue := b.authValue, createdTime := env.now }]) r =
          credsOf sess r ++ [(b.authType, b.authValue)] := by
        rw [credsOf_append, credsOf_singleton_mem _ _ rfl]
      rw [hcr]
      simp [List.append_assoc]

theorem transferLoop_noFaults_eq (env : Env) (r : String)
    (ds : List UserIdentityBinding) (sess : List UserIdentityBinding) :
    transferLoop env noFaults r ds 0 sess [] =
      .ok (sess ++ transferInserted env r ds 0 (credsOf sess r),
           (transferInserted env r ds 0 (credsOf sess r)).map
             (fun b => { authType := b.authType, authValue := b.authValue })) := by
  have h := transferLoop_noLoopFaults env noFaults r (fun _ => rfl) (fun _ => rfl) ds 0 sess []
  simpa using h

theorem transferInserted_fields (env : Env) (r : String) :
    ∀ (ds : List UserIdentityBinding) (i : Nat) (seen : List (String × String)),
      ∀ b ∈ transferInserted env r ds i seen,
        b.universalId = r ∧ b.createdTime = env.now ∧ ∃ j, b.id = env.genId j := by
  intro ds
  induction ds with
  | nil => intro i seen b hb; simp [transferInserted] at hb
  | cons d rest ih =>
    intro i seen b hb
    rw [transferInserted] at hb
    by_cases hm : (d.authType, d.authValue) ∈ seen
    · rw [if_pos hm] at hb
      exact ih (i + 1) seen b hb
    · rw [if_neg hm] at hb
      rcases List.mem_cons.mp hb with h | h
      · subst h; exact ⟨rfl, rfl, i, rfl⟩
      · exact ih (i + 1) (seen ++ [(d.authType, d.authValue)]) b h

theorem transferInserted_mem_iff (env : Env) (r : String) :
    ∀ (ds : List UserIdentityBinding) (i : Nat) (seen : List (String × String))
      (c : String × String),
      c ∈ (transferInserted env r ds i seen).map cred ↔ c ∈ ds.map cred ∧ c ∉ seen := by
  intro ds
  induction ds with
  | nil => intro i seen c; simp [transferInserted]
  | cons d rest ih =>
    intro i seen c
    rw [transferInserted]
    by_cases hm : (d.authType, d.authValue) ∈ seen
    · rw [if_pos hm, ih]
      simp only [List.map_cons, List.mem_cons, cred_def]
      constructor
      · rintro ⟨h1, h2⟩
        exact ⟨Or.inr h1, h2⟩
      · rintro ⟨h1 | h1, h2⟩
        · exact absurd (h1 ▸ hm) h2
        · exact ⟨h1, h2⟩
    · rw [if_neg hm]
      simp only [List.map_cons, List.mem_cons, ih, List.mem_append, List.mem_singleton,
        cred_def]
      constructor
      · rintro (h | ⟨h1, h2⟩)
        · exact ⟨Or.inl h, h ▸ hm⟩
        · exact ⟨Or.inr h1, fun hc => h2 (Or.inl hc)⟩
      · rintro ⟨h1 | h1, h2⟩
        · exact Or.inl h1
        · by_cases hcd : c = (d.authType, d.authValue)
          · exact Or.inl hcd
          · refine Or.inr ⟨h1, ?_⟩
            rintro (hc | hc | hc)
            · exact h2 hc
            · exact hcd hc
            · exact List.not_mem_nil c hc

theorem transferInserted_creds_nodup (env : Env) (r : String) :
    ∀ (ds : List UserIdentityBinding) (i : Nat) (seen : List (String × String)),
      ((transferInserted env r ds i seen).map cred).Nodup := by
  intro ds
  induction ds with
  | nil => intro i seen; simp [transferInserted]
  | cons d rest ih =>
    intro i seen
    rw [transferInserted]
    by_cases hm : (d.authType, d.authValue) ∈ seen
    · rw [if_pos hm]; exact ih (i + 1) seen
    · rw [if_neg hm]
      simp only [List.map_cons, List.nodup_cons, cred_def]
      refine ⟨?_, ih (i + 1) (seen ++ [(d.authType, d.authValue)])⟩
      intro hc
      have h2 := (transferInserted_mem_iff env r rest (i + 1)
        (seen ++ [(d.authType, d.authValue)]) (d.authType, d.authValue)).mp hc
      exact h2.2 (List.mem_append.mpr (Or.inr (List.mem_singleton.mpr rfl)))

theorem transferInserted_creds_filter (env : Env) (r : String) :
    ∀ (ds : List UserIdentityBinding) (i : Nat) (seen : List (String × String)),
      (ds.map cred).Nodup →
      (transferInserted env r ds i seen).map cred =
        (ds.map cred).filter (fun c => !(decide (c ∈ seen))) := by
  intro ds
  induction ds with
  | nil => intro i seen _; simp [transferInserted]
  | cons d rest ih =>
    intro i seen hnd
    simp only [List.map_cons, List.nodup_cons, cred_def] at hnd
    obtain ⟨hdc, hrest⟩ := hnd
    rw [transferInserted]
    by_cases hm : (d.authType, d.authValue) ∈ seen
    · rw [if_pos hm]
      rw [ih (i + 1) seen hrest]
      simp only [List.map_cons, List.filter_cons, cred_def]
      rw [if_neg (by simpa using hm)]
    · rw [if_neg hm]
      simp only [List.map_cons, List.filter_cons, cred_def]
      rw [if_pos (by simpa using hm)]
      simp only [List.map_cons, List.cons.injEq, cred_def, true_and]
      rw [ih (i + 1) (seen ++ [(d.authType, d.authValue)]) hrest]
      apply List.filter_congr
      intro c hc
      have hne : c ≠ (d.authType, d.authValue) := by
        intro h
        exact hdc (h ▸ hc)
      simp only [decide_not, List.mem_append, List.mem_singleton]
      by_cases hs : c ∈ seen
      · simp [hs]
      · simp [hs, hne]

theorem mergeUsers_ok_spec (env : Env) (st : Store) (rt dt : String)
    (rc dc : Claims) (ru du : User)
    (hrc : env.parseToken rt = some rc) (hdc : env.parseToken dt = some dc)
    (hru : getUserByUniversalId st rc.universalId = some ru)
    (hdu : getUserByUniversalId st dc.universalId = some du)
    (hrd : ru.isDeleted = false) (hdd : du.isDeleted = false)
    (hne : ¬ ru.universalId = du.universalId) :
    mergeUsers env noFaults st rt dt =
      (.ok { universalId := ru.universalId, deletedUserId := du.universalId,
             mergedAuthMethods :=
               (transferInserted env ru.universalId
                 (GetUserIdentityBindingsByUniversalId st.bindings du.universalId) 0
                 (credsOf st.bindings ru.universalId)).map
                 (fun b => { authType := b.authType, authValue := b.authValue }) },
       { bindings := (st.bindings ++ transferInserted env ru.universalId
           (GetUserIdentityBindingsByUniversalId st.bindings du.universalId) 0
           (credsOf st.bindings ru.universalId)).filter
             (fun b => !(b.universalId == du.universalId)),
         users := st.users.filter (fun x => !(x.owner == du.owner && x.name == du.name)),
         tokens := st.tokens.filter (fun t => !(t.user == du.name)),
         sessions := st.sessions.filter (fun s => !(s.owner == du.owner && s.name == du.name)),
         verifications := st.verifications.filter (fun r0 => !(r0.user == getId du)),
         resources := st.resources.filter (fun r0 => !(r0.user == du.name)),
         payments := st.payments.filter (fun p => !(p.user == du.name)),
         transactions := st.transactions.filter (fun p => !(p.user == du.name)),
         subscriptions := st.subscriptions.filter (fun p => !(p.user == du.name)) }) := by
  simp only [mergeUsers, mergeUsersCore, hrc, hdc, hru, hdu, hrd, hdd, if_neg hne,
    Bool.false_eq_true, if_false]
  rw [show (noFaults : MergeFaults) =
    ⟨fun _ => false, fun _ => false, false, false, false, false, false, false,
     false, false, false, false⟩ from rfl] at *
  rw [← show (noFaults : MergeFaults) =
    ⟨fun _ => false, fun _ => false, false, false, false, false, false, false,
     false, false, false, false⟩ from rfl]
  rw [transferLoop_noFaults_eq]
  simp [noFaults]

theorem credsOf_filter_ne (bs : List UserIdentityBinding) (r d : String) (h : r ≠ d) :
    credsOf (bs.filter fun b => !(b.universalId == d)) r = credsOf bs r := by
  unfold credsOf GetUserIdentityBindingsByUniversalId
  rw [List.filter_filter]
  congr 1
  apply List.filter_congr
  intro b _
  by_cases hb : b.universalId = r
  · simp [hb, h]
  · simp [hb]

theorem credsOf_transferInserted (env : Env) (r : String) (ds : List UserIdentityBinding)
    (i : Nat) (seen : List (String × String)) :
    credsOf (transferInserted env r ds i seen) r = (transferInserted env r ds i seen).map cred := by
  unfold credsOf GetUserIdentityBindingsByUniversalId
  congr 1
  apply List.filter_eq_self.mpr
  intro b hb
  simp [(transferInserted_fields env r ds i seen b hb).1]

/-- C1: for every successful merge of two distinct identities, bindings
of the deleted identity already present under the reserved identity are
skipped without error, the others are inserted under the reserved
identity with a fresh id and the current timestamp, mergedAuthMethods is
exactly the inserted credential list (the deleted credentials not already
bound to the reserved identity), and the reserved identity ends with the
duplicate-free union of both credential sets. -/
theorem merge_transfers_union_no_duplicates (env : Env) (st : Store) (rt dt : String)
    (rc dc : Claims) (ru du : User)
    (hrc : env.parseToken rt = some rc) (hdc : env.parseToken dt = some dc)
    (hru : getUserByUniversalId st rc.universalId = some ru)
    (hdu : getUserByUniversalId st dc.universalId = some du)
    (hrd : ru.isDeleted = false) (hdd : du.isDeleted = false)
    (hne : ¬ ru.universalId = du.universalId)
    (hnodupD : (credsOf st.bindings du.universalId).Nodup) :
    ∃ res st1, mergeUsers env noFaults st rt dt = (.ok res, st1) ∧
      res.mergedAuthMethods.map methodCred =
        (credsOf st.bindings du.universalId).filter
          (fun c => !(decide (c ∈ credsOf st.bindings ru.universalId))) ∧
      credsOf st1.bindings ru.universalId =
        credsOf st.bindings ru.universalId ++ res.mergedAuthMethods.map methodCred ∧
      (∀ c, c ∈ credsOf st1.bindings ru.universalId ↔
        (c ∈ credsOf st.bindings ru.universalId ∨ c ∈ credsOf st.bindings du.universalId)) ∧
      ((credsOf st.bindings ru.universalId).Nodup →
        (credsOf st1.bindings ru.universalId).Nodup) ∧
      (∀ b ∈ st1.bindings, b ∉ st.bindings →
        b.universalId = ru.universalId ∧ b.createdTime = env.now ∧ ∃ j, b.id = env.genId j) := by
  have hspec := mergeUsers_ok_spec env st rt dt rc dc ru du hrc hdc hru hdu hrd hdd hne
  set ins := transferInserted env ru.universalId
    (GetUserIdentityBindingsByUniversalId st.bindings du.universalId) 0
    (credsOf st.bindings ru.universalId) with hins
  refine ⟨_, _, hspec, ?_, ?_, ?_, ?_, ?_⟩
  · -- merged credentials are the deleted credentials not under the reserved identity
    have h1 : (List.map (fun b => ({ authType := b.authType, authValue := b.authValue} : AuthMethod)) ins).map methodCred
        = ins.map cred := by
      simp [methodCred_def, cred_def, List.map_map, Function.comp]
    rw [h1, hins, transferInserted_creds_filter env ru.universalId _ 0 _ (by
      simpa [credsOf] using hnodupD)]
    simp [credsOf]
  · -- the reserved credentials afterwards are the old ones plus the merged ones
    have h1 : (List.map (fun b => ({ authType := b.authType, authValue := b.authValue} : AuthMethod)) ins).map methodCred
        = ins.map cred := by
      simp [methodCred_def, cred_def, List.map_map, Function.comp]
    rw [h1]
    rw [credsOf_filter_ne _ _ _ hne, credsOf_append]
    congr 1
    unfold credsOf GetUserIdentityBindingsByUniversalId
    congr 1
    apply (List.filter_eq_self).mpr
    intro b hb
    have := (transferInserted_fields env ru.universalId _ 0 _ b hb).1
    simp [this]
  · -- union membership
    intro c
    rw [credsOf_filter_ne _ _ _ hne, credsOf_append, List.mem_append,
      credsOf_transferInserted, transferInserted_mem_iff]
    constructor
    · rintro (h | ⟨h1, h2⟩)
      · exact Or.inl h
      · exact Or.inr (by simpa [credsOf] using h1)
    · rintro (h | h)
      · exact Or.inl h
      · by_cases hc : c ∈ credsOf st.bindings ru.universalId
        · exact Or.inl hc
        · exact Or.inr ⟨by simpa [credsOf] using h, hc⟩
  · -- no duplicate credential under the reserved identity afterwards
    intro hnodupR
    rw [credsOf_filter_ne _ _ _ hne, credsOf_append, credsOf_transferInserted]
    refine List.Nodup.append hnodupR (transferInserted_creds_nodup env ru.universalId _ 0 _) ?_
    intro c hc1 hc2
    have h2 := (transferInserted_mem_iff env ru.universalId _ 0 _ c).mp hc2
    exact h2.2 hc1
  · -- every newly present row is a fresh row under the reserved identity
    intro b hb hbnot
    have hb2 : b ∈ st.bindings ++ ins := (List.mem_filter.mp hb).1
    rcases List.mem_append.mp hb2 with h | h
    · exact absurd h hbnot
    · exact transferInserted_fields env ru.universalId _ 0 _ b h

/-- C2: every failing merge leaves the store exactly as before the call
(any error rolls the transaction back), the preconditions are checked in
order before any write — invalid reserved token, invalid deleted token,
missing reserved account, missing deleted account, reserved flagged
deleted, deleted flagged deleted, identical universal identities (in
particular merging a token with itself) — and a storage failure of a
later step inside the transaction (here the purge of payment records)
surfaces as an error with the store unchanged. -/
theorem merge_error_order_and_rollback (env : Env) (f : MergeFaults) (st : Store)
    (rt dt : String) :
    (∀ e st1, mergeUsers env f st rt dt = (.error e, st1) → st1 = st) ∧
    (env.parseToken rt = none → mergeUsers env f st rt dt = (.error .invalidToken, st)) ∧
    (∀ rc, env.parseToken rt = some rc → env.parseToken dt = none →
      mergeUsers env f st rt dt = (.error .invalidToken, st)) ∧
    (∀ rc dc, env.parseToken rt = some rc → env.parseToken dt = some dc →
      getUserByUniversalId st rc.universalId = none →
      mergeUsers env f st rt dt = (.error .accountNotFound, st)) ∧
    (∀ rc dc ru, env.parseToken rt = some rc → env.parseToken dt = some dc →
      getUserByUniversalId st rc.universalId = some ru →
      getUserByUniversalId st dc.universalId = none →
      mergeUsers env f st rt dt = (.error .accountNotFound, st)) ∧
    (∀ rc dc ru du, env.parseToken rt = some rc → env.parseToken dt = some dc →
      getUserByUniversalId st rc.universalId = some ru →
      getUserByUniversalId st dc.universalId = some du →
      ru.isDeleted = true →
      mergeUsers env f st rt dt = (.error .accountAlreadyDeleted, st)) ∧
    (∀ rc dc ru du, env.parseToken rt = some rc → env.parseToken dt = some dc →
      getUserByUniversalId st rc.universalId = some ru →
      getUserByUniversalId st dc.universalId = some du →
      ru.isDeleted = false → du.isDeleted = true →
      mergeUsers env f st rt dt = (.error .accountAlreadyDeleted, st)) ∧
    (∀ rc dc ru du, env.parseToken rt = some rc → env.parseToken dt = some dc →
      getUserByUniversalId st rc.universalId = some ru →
      getUserByUniversalId st dc.universalId = some du →
      ru.isDeleted = false → du.isDeleted = false →
      ru.universalId = du.universalId →
      mergeUsers env f st rt dt = (.error .sameAccount, st)) ∧
    (∀ t c u, env.parseToken t = some c →
      getUserByUniversalId st c.universalId = some u → u.isDeleted = false →
      mergeUsers env f st t t = (.error .sameAccount, st)) ∧
    (∀ rc dc ru du, env.parseToken rt = some rc → env.parseToken dt = some dc →
      getUserByUniversalId st rc.universalId = some ru →
      getUserByUniversalId st dc.universalId = some du →
      ru.isDeleted = false → du.isDeleted = false →
      ¬ ru.universalId = du.universalId →
      mergeUsers env paymentsFault st rt dt = (.error .storage, st)) := by
  refine ⟨?_, ?_, ?_, ?_, ?_, ?_, ?_, ?_, ?_, ?_⟩
  · intro e st1 h
    unfold mergeUsers at h
    cases hcore : mergeUsersCore env f st rt dt with
    | error e2 =>
      rw [hcore] at h
      injection h with h1 h2
      exact h2.symm
    | ok p =>
      obtain ⟨p1, p2⟩ := p
      rw [hcore] at h
      injection h with h1 h2
      exact absurd h1 (by simp)
  · intro h
    simp [mergeUsers, mergeUsersCore, h]
  · intro rc h1 h2
    simp [mergeUsers, mergeUsersCore, h1, h2]
  · intro rc dc h1 h2 h3
    simp [mergeUsers, mergeUsersCore, h1, h2, h3]
  · intro rc dc ru h1 h2 h3 h4
    simp [mergeUsers, mergeUsersCore, h1, h2, h3, h4]
  · intro rc dc ru du h1 h2 h3 h4 h5
    simp [mergeUsers, mergeUsersCore, h1, h2, h3, h4, h5]
  · intro rc dc ru du h1 h2 h3 h4 h5 h6
    simp [mergeUsers, mergeUsersCore, h1, h2, h3, h4, h5, h6]
  · intro rc dc ru du h1 h2 h3 h4 h5 h6 h7
    simp [mergeUsers, mergeUsersCore, h1, h2, h3, h4, h5, h6, h7]
  · intro t c u h1 h2 h3
    simp [mergeUsers, mergeUsersCore, h1, h2, h3]
  · intro rc dc ru du h1 h2 h3 h4 h5 h6 h7
    simp only [mergeUsers, mergeUsersCore, h1, h2, h3, h4, h5, h6, if_neg h7,
      Bool.false_eq_true, if_false]
    rw [transferLoop_noLoopFaults env paymentsFault ru.universalId
      (fun _ => rfl) (fun _ => rfl)]
    simp [paymentsFault, noFaults]

/-- C8: after every successful merge the deleted identity owns zero
bindings, all dependent records of the deleted account — tokens,
sessions, verification records, resource records, payment records,
transaction records, subscription records — are gone, and the account row
itself is deleted. Each purge is a delete-by-reference, so absence of
matching rows is not an error (the witness run purges a store that has
exactly one row per table, and the success characterization does not
depend on those tables being non-empty). -/
theorem merge_purges_deleted_account (env : Env) (st : Store) (rt dt : String)
    (rc dc : Claims) (ru du : User)
    (hrc : env.parseToken rt = some rc) (hdc : env.parseToken dt = some dc)
    (hru : getUserByUniversalId st rc.universalId = some ru)
    (hdu : getUserByUniversalId st dc.universalId = some du)
    (hrd : ru.isDeleted = false) (hdd : du.isDeleted = false)
    (hne : ¬ ru.universalId = du.universalId) :
    ∃ res st1, mergeUsers env noFaults st rt dt = (.ok res, st1) ∧
      (∀ b ∈ st1.bindings, b.universalId ≠ du.universalId) ∧
      (∀ tok ∈ st1.tokens, tok.user ≠ du.name) ∧
      (∀ s ∈ st1.sessions, s.owner = du.owner → s.name ≠ du.name) ∧
      (∀ vr ∈ st1.verifications, vr.user ≠ getId du) ∧
      (∀ r0 ∈ st1.resources, r0.user ≠ du.name) ∧
      (∀ p0 ∈ st1.payments, p0.user ≠ du.name) ∧
      (∀ tr ∈ st1.transactions, tr.user ≠ du.name) ∧
      (∀ sb ∈ st1.subscriptions, sb.user ≠ du.name) ∧
      (∀ x ∈ st1.users, x.owner = du.owner → x.name ≠ du.name) := by
  refine ⟨_, _, mergeUsers_ok_spec env st rt dt rc dc ru du hrc hdc hru hdu hrd hdd hne,
    ?_, ?_, ?_, ?_, ?_, ?_, ?_, ?_, ?_⟩ <;>
  · intro a ha
    have h2 := (List.mem_filter.mp ha).2
    simp at h2
    first
    | exact h2
    | · intro hown
        rcases h2 with h2 | h2
        · exact absurd hown h2
        · exact h2

/-- C5: bind is idempotent for a credential already owned by the same
identity (the existing row is returned, the table untouched), fails with
the already-bound error when another identity owns the credential (the
Go function performs no write on that path), and otherwise inserts
exactly one new row with the generated id and current timestamp and
returns it. -/
theorem bind_semantics (env : Env) (bs : List UserIdentityBinding) (u t v : String) :
    (∀ ex, GetUserIdentityBindingByAuth bs t v = some ex →
      (ex.universalId = u → AddUserIdentityBindingForUser env bs u t v = .ok (ex, bs)) ∧
      (ex.universalId ≠ u →
        AddUserIdentityBindingForUser env bs u t v = .error .credentialAlreadyBound)) ∧
    (GetUserIdentityBindingByAuth bs t v = none →
      AddUserIdentityBindingForUser env bs u t v =
        .ok ({ id := env.genId 0, universalId := u, authType := t, authValue := v,
               createdTime := env.now },
             bs ++ [{ id := env.genId 0, universalId := u, authType := t, authValue := v,
                      createdTime := env.now }])) := by
  refine ⟨?_, ?_⟩
  · intro ex hex
    refine ⟨?_, ?_⟩
    · intro hsame
      simp [AddUserIdentityBindingForUser, hex, hsame]
    · intro hdiff
      simp [AddUserIdentityBindingForUser, hex, hdiff]
  · intro hnone
    simp [AddUserIdentityBindingForUser, hnone]

theorem filter_out_id_spec (l : List UserIdentityBinding) (tb : UserIdentityBinding)
    (hnd : (l.map (fun b => b.id)).Nodup) (htb : tb ∈ l) :
    (l.filter fun b => !(b.id == tb.id)).length + 1 = l.length ∧
    tb ∉ (l.filter fun b => !(b.id == tb.id)) ∧
    (∀ b ∈ l, b ≠ tb → b ∈ l.filter fun b2 => !(b2.id == tb.id)) := by
  have hinj := List.inj_on_of_nodup_map hnd
  have hlnd : l.Nodup := List.Nodup.of_map _ hnd
  have hpred : ∀ b ∈ l, (!(b.id == tb.id)) = (!(b == tb)) := by
    intro b hb
    by_cases h : b.id = tb.id
    · have hbtb := hinj hb htb h
      simp [h, hbtb]
    · have hne : ¬ b = tb := fun hc => h (by rw [hc])
      simp [h, hne]
  refine ⟨?_, ?_, ?_⟩
  · rw [List.filter_congr hpred]
    have hcount : l.countP (fun b => b == tb) = 1 := by
      have hc := List.count_eq_one_of_mem hlnd htb
      simpa [List.count] using hc
    have hsplit := List.length_eq_countP_add_countP (p := fun b => b == tb) (l := l)
    have hconv : List.countP (fun a => decide ¬((a == tb) = true)) l
        = List.countP (fun x => !(x == tb)) l := by
      apply List.countP_congr
      intro x _
      simp
    rw [← List.countP_eq_length_filter]
    omega
  · intro hc
    have h2 := (List.mem_filter.mp hc).2
    simp at h2
  · intro b hb hne
    refine List.mem_filter.mpr ⟨hb, ?_⟩
    have hid : ¬ b.id = tb.id := fun h => hne (hinj hb htb h)
    simp [hid]

theorem getBindings_filter_comm (bs : List UserIdentityBinding) (P : UserIdentityBinding → Bool)
    (u : String) :
    GetUserIdentityBindingsByUniversalId (bs.filter P) u =
      (GetUserIdentityBindingsByUniversalId bs u).filter P := by
  unfold GetUserIdentityBindingsByUniversalId
  rw [List.filter_filter, List.filter_filter]
  apply List.filter_congr
  intro b _
  rw [Bool.and_comm]

/-- C6: unbind fails with the last-credential error when the identity
owns at most one binding, fails with the not-found error when no binding
of the identity matches the auth type, and otherwise deletes exactly the
one matching row and no other row, so an identity with more than one
binding keeps at least one binding after the call. The Go function
performs no write before the single delete, so both error paths leave the
table as given. -/
theorem unbind_semantics (bs : List UserIdentityBinding) (u t : String)
    (hids : (bs.map (fun b => b.id)).Nodup) :
    ((GetUserIdentityBindingsByUniversalId bs u).length ≤ 1 →
      RemoveUserIdentityBindingForUser bs u t = .error .lastCredential) ∧
    (1 < (GetUserIdentityBindingsByUniversalId bs u).length →
      (GetUserIdentityBindingsByUniversalId bs u).find? (fun b => b.authType == t) = none →
      RemoveUserIdentityBindingForUser bs u t = .error .bindingNotFound) ∧
    (∀ tb, 1 < (GetUserIdentityBindingsByUniversalId bs u).length →
      (GetUserIdentityBindingsByUniversalId bs u).find? (fun b => b.authType == t) = some tb →
      RemoveUserIdentityBindingForUser bs u t =
        .ok (bs.filter fun b => !(b.id == tb.id)) ∧
      tb.universalId = u ∧ tb.authType = t ∧
      (bs.filter fun b => !(b.id == tb.id)).length + 1 = bs.length ∧
      tb ∉ (bs.filter fun b => !(b.id == tb.id)) ∧
      (∀ b ∈ bs, b ≠ tb → b ∈ bs.filter fun b2 => !(b2.id == tb.id)) ∧
      1 ≤ (GetUserIdentityBindingsByUniversalId (bs.filter fun b => !(b.id == tb.id)) u).length) := by
  refine ⟨?_, ?_, ?_⟩
  · intro h
    simp only [RemoveUserIdentityBindingForUser, if_pos h]
  · intro h1 h2
    simp only [RemoveUserIdentityBindingForUser, h2, if_neg (Nat.not_le.mpr h1)]
  · intro tb h1 h2
    have howned := List.mem_of_find?_eq_some h2
    have htb : tb ∈ bs := (List.mem_filter.mp howned).1
    have htbu : tb.universalId = u := by
      have := (List.mem_filter.mp howned).2
      simpa using this
    have htbt : tb.authType = t := by
      have := List.find?_some h2
      simpa using this
    have hmain := filter_out_id_spec bs tb hids htb
    have hondnd : ((GetUserIdentityBindingsByUniversalId bs u).map (fun b => b.id)).Nodup :=
      List.Nodup.sublist (List.Sublist.map _ (List.filter_sublist bs)) hids
    have howlen := (filter_out_id_spec (GetUserIdentityBindingsByUniversalId bs u) tb
      hondnd howned).1
    refine ⟨?_, htbu, htbt, hmain.1, hmain.2.1, hmain.2.2, ?_⟩
    · simp only [RemoveUserIdentityBindingForUser, h2, if_neg (Nat.not_le.mpr h1)]
      have hlen := hmain.1
      rw [if_neg (by omega)]
    · rw [getBindings_filter_comm]
      omega

theorem autoDetect_eq_specResolve (u : User) : autoDetectProviderType u = specResolve u := by
  by_cases h1 : u.email = ""
  ·
    by_cases h2 : u.phone = ""
    ·
      by_cases h3 : u.password = ""
      ·
        by_cases h4 : u.github = ""
        ·
          by_cases h5 : u.google = ""
          ·
            by_cases h6 : u.wechat = ""
            ·
              by_cases h7 : u.qq = ""
              ·
                by_cases h8 : u.facebook = ""
                ·
                  by_cases h9 : u.dingtalk = ""
                  ·
                    by_cases h10 : u.weibo = ""
                    ·
                      by_cases h11 : u.ldap = ""
                      ·
                        by_cases h12 : u.custom = ""
                        ·
                          simp [autoDetectProviderType, specResolve, specFieldOrder, List.find?, h1, h2, h3, h4, h5, h6, h7, h8, h9, h10, h11, h12]
                        · have hb : (u.custom == "") = false := by simp [h12]
                          simp [autoDetectProviderType, specResolve, specFieldOrder, List.find?, h1, h2, h3, h4, h5, h6, h7, h8, h9, h10, h11, h12, hb]
                      · have hb : (u.ldap == "") = false := by simp [h11]
                        simp [autoDetectProviderType, specResolve, specFieldOrder, List.find?, h1, h2, h3, h4, h5, h6, h7, h8, h9, h10, h11, hb]
                    · have hb : (u.weibo == "") = false := by simp [h10]
                      simp [autoDetectProviderType, specResolve, specFieldOrder, List.find?, h1, h2, h3, h4, h5, h6, h7, h8, h9, h10, hb]
                  · have hb : (u.dingtalk == "") = false := by simp [h9]
                    simp [autoDetectProviderType, specResolve, specFieldOrder, List.find?, h1, h2, h3, h4, h5, h6, h7, h8, h9, hb]
                · have hb : (u.facebook == "") = false := by simp [h8]
                  simp [autoDetectProviderType, specResolve, specFieldOrder, List.find?, h1, h2, h3, h4, h5, h6, h7, h8, hb]
              · have hb : (u.qq == "") = false := by simp [h7]
                simp [autoDetectProviderType, specResolve, specFieldOrder, List.find?, h1, h2, h3, h4, h5, h6, h7, hb]
            · have hb : (u.wechat == "") = false := by simp [h6]
              simp [autoDetectProviderType, specResolve, specFieldOrder, List.find?, h1, h2, h3, h4, h5, h6, hb]
          · have hb : (u.google == "") = false := by simp [h5]
            simp [autoDetectProviderType, specResolve, specFieldOrder, List.find?, h1, h2, h3, h4, h5, hb]
        · have hb : (u.github == "") = false := by simp [h4]
          simp [autoDetectProviderType, specResolve, specFieldOrder, List.find?, h1, h2, h3, h4, hb]
      · have hb : (u.password == "") = false := by simp [h3]
        simp [autoDetectProviderType, specResolve, specFieldOrder, List.find?, h1, h2, h3, hb]
    · have hb : (u.phone == "") = false := by simp [h2]
      simp [autoDetectProviderType, specResolve, specFieldOrder, List.find?, h1, h2, hb]
  · have hb : (u.email == "") = false := by simp [h1]
    simp [autoDetectProviderType, specResolve, specFieldOrder, List.find?, h1, hb]

theorem autoDetect_empty_iff (u : User) :
    autoDetectProviderType u = ("", "") ↔ allProviderFieldsEmpty u := by
  by_cases h1 : u.email = ""
  ·
    by_cases h2 : u.phone = ""
    ·
      by_cases h3 : u.password = ""
      ·
        by_cases h4 : u.github = ""
        ·
          by_cases h5 : u.google = ""
          ·
            by_cases h6 : u.wechat = ""
            ·
              by_cases h7 : u.qq = ""
              ·
                by_cases h8 : u.facebook = ""
                ·
                  by_cases h9 : u.dingtalk = ""
                  ·
                    by_cases h10 : u.weibo = ""
                    ·
                      by_cases h11 : u.ldap = ""
                      ·
                        by_cases h12 : u.custom = ""
                        ·
                          simp [autoDetectProviderType, allProviderFieldsEmpty, h1, h2, h3, h4, h5, h6, h7, h8, h9, h10, h11, h12]
                        · simp [autoDetectProviderType, allProviderFieldsEmpty, h1, h2, h3, h4, h5, h6, h7, h8, h9, h10, h11, h12]
                      · simp [autoDetectProviderType, allProviderFieldsEmpty, h1, h2, h3, h4, h5, h6, h7, h8, h9, h10, h11]
                    · simp [autoDetectProviderType, allProviderFieldsEmpty, h1, h2, h3, h4, h5, h6, h7, h8, h9, h10]
                  · simp [autoDetectProviderType, allProviderFieldsEmpty, h1, h2, h3, h4, h5, h6, h7, h8, h9]
                · simp [autoDetectProviderType, allProviderFieldsEmpty, h1, h2, h3, h4, h5, h6, h7, h8]
              · simp [autoDetectProviderType, allProviderFieldsEmpty, h1, h2, h3, h4, h5, h6, h7]
            · simp [autoDetectProviderType, allProviderFieldsEmpty, h1, h2, h3, h4, h5, h6]
          · simp [autoDetectProviderType, allProviderFieldsEmpty, h1, h2, h3, h4, h5]
        · simp [autoDetectProviderType, allProviderFieldsEmpty, h1, h2, h3, h4]
      · simp [autoDetectProviderType, allProviderFieldsEmpty, h1, h2, h3]
    · simp [autoDetectProviderType, allProviderFieldsEmpty, h1, h2]
  · simp [autoDetectProviderType, allProviderFieldsEmpty, h1]

theorem autoDetect_nonempty (u : User) (h : ¬ allProviderFieldsEmpty u) :
    (autoDetectProviderType u).1 ≠ "" ∧ (autoDetectProviderType u).2 ≠ "" := by
  have hpw : u.owner ++ "/" ++ u.name ≠ "" := by
    intro hEq
    have h2 := congrArg String.length hEq
    have hl1 : ("/" : String).length = 1 := rfl
    simp [String.length_append, hl1] at h2
  by_cases h1 : u.email = ""
  ·
    by_cases h2 : u.phone = ""
    ·
      by_cases h3 : u.password = ""
      ·
        by_cases h4 : u.github = ""
        ·
          by_cases h5 : u.google = ""
          ·
            by_cases h6 : u.wechat = ""
            ·
              by_cases h7 : u.qq = ""
              ·
                by_cases h8 : u.facebook = ""
                ·
                  by_cases h9 : u.dingtalk = ""
                  ·
                    by_cases h10 : u.weibo = ""
                    ·
                      by_cases h11 : u.ldap = ""
                      ·
                        by_cases h12 : u.custom = ""
                        ·
                          exact absurd (by simp [allProviderFieldsEmpty, h1, h2, h3, h4, h5, h6, h7, h8, h9, h10, h11, h12]) h
                        · simp [autoDetectProviderType, allProviderFieldsEmpty, hpw, h1, h2, h3, h4, h5, h6, h7, h8, h9, h10, h11, h12]
                      · simp [autoDetectProviderType, allProviderFieldsEmpty, hpw, h1, h2, h3, h4, h5, h6, h7, h8, h9, h10, h11]
                    · simp [autoDetectProviderType, allProviderFieldsEmpty, hpw, h1, h2, h3, h4, h5, h6, h7, h8, h9, h10]
                  · simp [autoDetectProviderType, allProviderFieldsEmpty, hpw, h1, h2, h3, h4, h5, h6, h7, h8, h9]
                · simp [autoDetectProviderType, allProviderFieldsEmpty, hpw, h1, h2, h3, h4, h5, h6, h7, h8]
              · simp [autoDetectProviderType, allProviderFieldsEmpty, hpw, h1, h2, h3, h4, h5, h6, h7]
            · simp [autoDetectProviderType, allProviderFieldsEmpty, hpw, h1, h2, h3, h4, h5, h6]
          · simp [autoDetectProviderType, allProviderFieldsEmpty, hpw, h1, h2, h3, h4, h5]
        · simp [autoDetectProviderType, allProviderFieldsEmpty, hpw, h1, h2, h3, h4]
      · simp [autoDetectProviderType, allProviderFieldsEmpty, hpw, h1, h2, h3]
    · simp [autoDetectProviderType, allProviderFieldsEmpty, hpw, h1, h2]
  · simp [autoDetectProviderType, allProviderFieldsEmpty, hpw, h1]

/-- C4 (amended): the auto-detection scan of the Provider Resolver equals
the spec-modelled first-non-empty search over the committed fixed
priority order — email, phone, password (value is the owner/name
composite), github, google, wechat, qq, facebook, dingtalk, weibo, ldap,
custom — and yields the empty result (the hard creation-time error)
exactly when every one of these fields is empty. The scan runs when a
provider hint was given but no value is available for it; when no hint is
given at all the creation path does not fall back to the priority order,
it fails immediately with the primary-provider-required error, which is
where the original claim fails. -/
theorem resolver_priority_fixed_order (u : User) (env : Env) (bs : List UserIdentityBinding)
    (universalId primaryProvider : String) :
    autoDetectProviderType u = specResolve u ∧
    (autoDetectProviderType u = ("", "") ↔ allProviderFieldsEmpty u) ∧
    (primaryProvider ≠ "" → getProviderValue u primaryProvider = "" →
      ((allProviderFieldsEmpty u →
        createIdentityBindingsWithValue env bs u universalId primaryProvider "" =
          .error .noCredentialAvailable) ∧
      (¬ allProviderFieldsEmpty u →
        createIdentityBindingsWithValue env bs u universalId primaryProvider "" =
          .ok (bs ++ [{ id := env.genId 0, universalId := universalId,
                        authType := toLowerStr (autoDetectProviderType u).1,
                        authValue := (autoDetectProviderType u).2,
                        createdTime := env.now }])))) ∧
    (createIdentityBindingsWithValue env bs u universalId "" "" =
      .error .primaryProviderRequired) := by
  refine ⟨autoDetect_eq_specResolve u, autoDetect_empty_iff u, ?_,
    by simp [createIdentityBindingsWithValue]⟩
  intro hpp hgv
  constructor
  · intro hall
    have hdet : autoDetectProviderType u = ("", "") := (autoDetect_empty_iff u).mpr hall
    simp [createIdentityBindingsWithValue, hpp, hgv, hdet]
  · intro hnall
    obtain ⟨hd1, hd2⟩ := autoDetect_nonempty u hnall
    simp [createIdentityBindingsWithValue, hpp, hgv, hd1, hd2]

/-- C4 counterexample: an account whose email field is non-empty, created
with no provider hint, does not receive the email credential the claim
promises; the call fails with the primary-provider-required error. -/
theorem resolver_no_hint_fails_counterexample :
    userAlice.email ≠ "" ∧
    createIdentityBindingsWithValue envEx [] userAlice "U-A" "" "" =
      .error .primaryProviderRequired := ⟨by decide, rfl⟩

/-- C7: global credential uniqueness is not preserved by every mutating
operation. The account-creation binding path inserts without any
existence check and the binding struct declares no unique index (the
documented schema does), so creating an account whose email is already
bound to a different universal identity yields two rows carrying the same
credential under different identities. -/
theorem creation_breaks_global_uniqueness :
    globallyUnique [bindU1] ∧
    createIdentityBindingsWithValue envEx [bindU1] userCarol "U2" "email" "" =
      .ok [bindU1, bindU2dup] ∧
    bindU2dup.authType = bindU1.authType ∧
    bindU2dup.authValue = bindU1.authValue ∧
    bindU2dup.universalId ≠ bindU1.universalId ∧
    ¬ globallyUnique [bindU1, bindU2dup] := by
  refine ⟨by decide, rfl, rfl, rfl, by decide, by decide⟩

/-- C3: the merge orchestrator performs no caller-participation
validation: its only inputs are the two participant tokens — it receives
no caller identity at all — and it completes the merge; the check that
the caller is one of the two participants exists only in the boundary
controller, which rejects the non-participant caller on the very same
request the orchestrator accepts. -/
theorem orchestrator_lacks_caller_validation :
    (mergeUsers envEx noFaults stEx "tokA" "tokB").1 =
      .ok { universalId := "U-A", deletedUserId := "U-B",
            mergedAuthMethods := [{ authType := "phone", authValue := "555" }] } ∧
    (controllerMergeUsers envEx noFaults stEx "tokM" "tokA" "tokB").1 =
      .error .unauthorized := by
  exact ⟨rfl, rfl⟩

/-- C9 (amended): for the credential types github, phone and email the
login resolver looks the binding up directly by type and value and then
loads the account by the binding universal identity, failing with the
authentication-failed error when no binding matches; for the password
type it first validates the secret through the external password checker
against the owner/name composite and only on success looks up the
password binding; every other credential type is rejected with an
unsupported-auth-type error before any lookup, which is where the
original claim (stated for every non-password type) fails. -/
theorem login_resolver_semantics (env : Env) (st : Store) (v p : String) :
    (∀ t, (t = "github" ∨ t = "phone" ∨ t = "email") →
      LoginWithUnifiedIdentity env false st t v p =
        (match GetUserIdentityBindingByAuth st.bindings t v with
         | none => .error .authenticationFailed
         | some b =>
           match getUserByUniversalId st b.universalId with
           | none => .error .accountNotFound
           | some u => .ok u)) ∧
    (∀ o n e, splitSlash v = [o, n] → env.checkUserPassword o n p = .error e →
      LoginWithUnifiedIdentity env false st "password" v p = .error e) ∧
    (∀ o n u, splitSlash v = [o, n] → env.checkUserPassword o n p = .ok u →
      LoginWithUnifiedIdentity env false st "password" v p =
        (match GetUserIdentityBindingByAuth st.bindings "password" (u.owner ++ "/" ++ u.name) with
         | none => .error .authenticationFailed
         | some b =>
           match getUserByUniversalId st b.universalId with
           | none => .error .accountNotFound
           | some uu => .ok uu)) ∧
    (∀ t, t ≠ "github" → t ≠ "phone" → t ≠ "email" → t ≠ "password" →
      LoginWithUnifiedIdentity env false st t v p = .error .unsupportedAuthType) := by
  refine ⟨?_, ?_, ?_, ?_⟩
  · rintro t (rfl | rfl | rfl) <;>
    · cases hbind : GetUserIdentityBindingByAuth st.bindings _ v with
      | none => simp [LoginWithUnifiedIdentity, GetUserIdentityBindingByAuthF, hbind]
      | some b =>
        cases huser : getUserByUniversalId st b.universalId with
        | none => simp [LoginWithUnifiedIdentity, GetUserIdentityBindingByAuthF, hbind, huser]
        | some u => simp [LoginWithUnifiedIdentity, GetUserIdentityBindingByAuthF, hbind, huser]
  · intro o n e hsplit herr
    simp [LoginWithUnifiedIdentity, validateUsernamePassword, hsplit, herr]
  · intro o n u hsplit hok
    cases hbind : GetUserIdentityBindingByAuth st.bindings "password" (u.owner ++ "/" ++ u.name) with
    | none =>
      simp [LoginWithUnifiedIdentity, validateUsernamePassword, hsplit, hok,
        GetUserIdentityBindingByAuthF, hbind]
    | some b =>
      cases huser : getUserByUniversalId st b.universalId with
      | none =>
        simp [LoginWithUnifiedIdentity, validateUsernamePassword, hsplit, hok,
          GetUserIdentityBindingByAuthF, hbind, huser]
      | some uu =>
        simp [LoginWithUnifiedIdentity, validateUsernamePassword, hsplit, hok,
          GetUserIdentityBindingByAuthF, hbind, huser]
  · intro t h1 h2 h3 h4
    simp [LoginWithUnifiedIdentity, h1, h2, h3, h4]

/-- C9 counterexample: a google credential with a matching binding in the
store is not resolved; the login resolver rejects the google type without
consulting the binding store. -/
theorem login_google_unsupported_counterexample :
    bindGoogle ∈ stGoogle.bindings ∧ bindGoogle.authType = "google" ∧
    GetUserIdentityBindingByAuth stGoogle.bindings "google" "g1" = some bindGoogle ∧
    LoginWithUnifiedIdentity envEx false stGoogle "google" "g1" "" =
      .error .unsupportedAuthType := by
  refine ⟨by decide, rfl, rfl, rfl⟩

theorem login_resolver_witness :
    LoginWithUnifiedIdentity envEx false stEx "email" "a@x.com" "" = .ok userAlice ∧
    LoginWithUnifiedIdentity envEx false stEx "github" "nope" "" =
      .error .authenticationFailed ∧
    LoginWithUnifiedIdentity envPw false stEx "password" "org/alice" "pw" =
      .error .authenticationFailed ∧
    LoginWithUnifiedIdentity envPw false stEx "password" "org/alice" "bad" =
      .error .passwordCheckFailed ∧
    LoginWithUnifiedIdentity envEx false stEx "google" "g1" "" =
      .error .unsupportedAuthType := by
  have h1 := login_resolver_semantics envEx stEx "a@x.com" ""
  have h2 := login_resolver_semantics envEx stEx "nope" ""
  have h3 := login_resolver_semantics envPw stEx "org/alice" "pw"
  have h4 := login_resolver_semantics envPw stEx "org/alice" "bad"
  have h5 := login_resolver_semantics envEx stEx "g1" ""
  refine ⟨?_, ?_, ?_, ?_, ?_⟩
  · rw [h1.1 "email" (Or.inr (Or.inr rfl))]; rfl
  · rw [h2.1 "github" (Or.inl rfl)]; rfl
  · rw [h3.2.2.1 "org" "alice" userAlice rfl rfl]; rfl
  · exact h4.2.1 "org" "alice" .passwordCheckFailed rfl rfl
  · exact h5.2.2.2 "google" (by decide) (by decide) (by decide) (by decide)

/-- C10: in the password branch of the login resolver the binding-store
lookup assigns its error to the case-scoped err variable that shadows the
outer one, so when password verification succeeds and the lookup itself
fails with a storage error, that error is discarded and the caller sees
the generic authentication-failed error; the github branch of the same
function surfaces the identical storage error, showing the loss is
specific to the shadowed branch. -/
theorem password_lookup_error_swallowed (env : Env) (st : Store) (v p o n : String) (u : User)
    (hsplit : splitSlash v = [o, n]) (hok : env.checkUserPassword o n p = .ok u) :
    LoginWithUnifiedIdentity env true st "password" v p = .error .authenticationFailed ∧
    LoginWithUnifiedIdentity env true st "github" v p = .error .storage := by
  constructor
  · simp [LoginWithUnifiedIdentity, validateUsernamePassword, hsplit, hok,
      GetUserIdentityBindingByAuthF]
  · simp [LoginWithUnifiedIdentity, GetUserIdentityBindingByAuthF]

theorem password_lookup_error_swallowed_witness :
    LoginWithUnifiedIdentity envPw true stEx "password" "org/alice" "pw" =
      .error .authenticationFailed ∧
    LoginWithUnifiedIdentity envPw true stEx "github" "org/alice" "pw" =
      .error .storage :=
  password_lookup_error_swallowed envPw stEx "org/alice" "pw" "org" "alice" userAlice rfl rfl

theorem merge_transfer_witness :
    ∃ res st1, mergeUsers envEx noFaults stEx "tokA" "tokB" = (.ok res, st1) ∧
      res.mergedAuthMethods.map methodCred =
        (credsOf stEx.bindings userBob.universalId).filter
          (fun c => !(decide (c ∈ credsOf stEx.bindings userAlice.universalId))) ∧
      credsOf st1.bindings userAlice.universalId =
        credsOf stEx.bindings userAlice.universalId ++ res.mergedAuthMethods.map methodCred ∧
      (∀ c, c ∈ credsOf st1.bindings userAlice.universalId ↔
        (c ∈ credsOf stEx.bindings userAlice.universalId ∨
         c ∈ credsOf stEx.bindings userBob.universalId)) ∧
      ((credsOf stEx.bindings userAlice.universalId).Nodup →
        (credsOf st1.bindings userAlice.universalId).Nodup) ∧
      (∀ b ∈ st1.bindings, b ∉ stEx.bindings →
        b.universalId = userAlice.universalId ∧ b.createdTime = envEx.now ∧
        ∃ j, b.id = envEx.genId j) :=
  merge_transfers_union_no_duplicates envEx stEx "tokA" "tokB" ⟨"U-A", "alice"⟩
    ⟨"U-B", "bob"⟩ userAlice userBob (by decide) (by decide) (by decide) (by decide)
    (by decide) (by decide) (by decide) (by decide)

theorem merge_purge_witness :
    ∃ res st1, mergeUsers envEx noFaults stEx "tokA" "tokB" = (.ok res, st1) ∧
      (∀ b ∈ st1.bindings, b.universalId ≠ userBob.universalId) ∧
      (∀ tok ∈ st1.tokens, tok.user ≠ userBob.name) ∧
      (∀ s ∈ st1.sessions, s.owner = userBob.owner → s.name ≠ userBob.name) ∧
      (∀ vr ∈ st1.verifications, vr.user ≠ getId userBob) ∧
      (∀ r0 ∈ st1.resources, r0.user ≠ userBob.name) ∧
      (∀ p0 ∈ st1.payments, p0.user ≠ userBob.name) ∧
      (∀ tr ∈ st1.transactions, tr.user ≠ userBob.name) ∧
      (∀ sb ∈ st1.subscriptions, sb.user ≠ userBob.name) ∧
      (∀ x ∈ st1.users, x.owner = userBob.owner → x.name ≠ userBob.name) :=
  merge_purges_deleted_account envEx stEx "tokA" "tokB" ⟨"U-A", "alice"⟩ ⟨"U-B", "bob"⟩
    userAlice userBob (by decide) (by decide) (by decide) (by decide) (by decide)
    (by decide) (by decide)

theorem merge_error_witness :
    mergeUsers envEx noFaults stEx "badtok" "tokB" = (.error .invalidToken, stEx) ∧
    mergeUsers envEx noFaults stEx "tokA" "tokA" = (.error .sameAccount, stEx) ∧
    mergeUsers envEx paymentsFault stEx "tokA" "tokB" = (.error .storage, stEx) := by
  have h1 := merge_error_order_and_rollback envEx noFaults stEx "badtok" "tokB"
  have h2 := merge_error_order_and_rollback envEx noFaults stEx "tokA" "tokA"
  have h3 := merge_error_order_and_rollback envEx noFaults stEx "tokA" "tokB"
  refine ⟨h1.2.1 (by decide), ?_, ?_⟩
  · exact h2.2.2.2.2.2.2.2.2.1 "tokA" ⟨"U-A", "alice"⟩ userAlice (by decide) (by decide)
      (by decide)
  · exact h3.2.2.2.2.2.2.2.2.2 ⟨"U-A", "alice"⟩ ⟨"U-B", "bob"⟩ userAlice userBob
      (by decide) (by decide) (by decide) (by decide) (by decide) (by decide) (by decide)

theorem bind_witness :
    AddUserIdentityBindingForUser envEx [bindA] "U-A" "email" "a@x.com" = .ok (bindA, [bindA]) ∧
    AddUserIdentityBindingForUser envEx [bindA] "U-B" "email" "a@x.com" =
      .error .credentialAlreadyBound ∧
    AddUserIdentityBindingForUser envEx [bindA] "U-A" "phone" "555" =
      .ok ({ id := "newid", universalId := "U-A", authType := "phone", authValue := "555",
             createdTime := "t1" },
           [bindA, { id := "newid", universalId := "U-A", authType := "phone",
                     authValue := "555", createdTime := "t1" }]) := by
  have h1 := bind_semantics envEx [bindA] "U-A" "email" "a@x.com"
  have h2 := bind_semantics envEx [bindA] "U-B" "email" "a@x.com"
  have h3 := bind_semantics envEx [bindA] "U-A" "phone" "555"
  refine ⟨(h1.1 bindA rfl).1 rfl, (h2.1 bindA rfl).2 (by decide), ?_⟩
  rw [h3.2 rfl]
  rfl

theorem unbind_witness :
    RemoveUserIdentityBindingForUser [bindB1, bindB2] "U-B" "phone" = .ok [bindB1] ∧
    RemoveUserIdentityBindingForUser [bindB1, bindB2] "U-B" "github" =
      .error .bindingNotFound ∧
    RemoveUserIdentityBindingForUser [bindB1] "U-B" "email" = .error .lastCredential := by
  have h1 := unbind_semantics [bindB1, bindB2] "U-B" "phone" (by decide)
  have h2 := unbind_semantics [bindB1, bindB2] "U-B" "github" (by decide)
  have h3 := unbind_semantics [bindB1] "U-B" "email" (by decide)
  refine ⟨?_, ?_, ?_⟩
  · have h4 := (h1.2.2 bindB2 (by decide) rfl).1
    rw [h4]
    rfl
  · exact h2.2.1 (by decide) rfl
  · exact h3.1 (by decide)

theorem resolver_priority_witness :
    createIdentityBindingsWithValue envEx [] userPhoneOnly "U3" "github" "" =
      .ok [{ id := "newid", universalId := "U3", authType := "phone",
             authValue := "13800000000", createdTime := "t1" }] ∧
    createIdentityBindingsWithValue envEx [] userPhoneOnly "U3" "" "" =
      .error .primaryProviderRequired := by
  have h := resolver_priority_fixed_order userPhoneOnly envEx [] "U3" "github"
  obtain ⟨-, -, h3, h4⟩ := h
  obtain ⟨-, h32⟩ := h3 (by decide) rfl
  refine ⟨?_, h4⟩
  rw [h32 (by decide)]
  rfl

end Casdoor
